import Mathlib

/-! Verification of the movie-chatbot function-calling loop in src/app.py.

The Python program is shallowly embedded. Pure helpers become Lean
functions; the stateful chat loop becomes explicit state passing over a
LoopState record; fallible Python code (code that can raise) returns
Except String. External collaborators -- the OpenAI generation calls,
the movie_functions capability handlers, and the outcome of json.loads
on the side-channel decision -- are supplied through an Oracle record of
functions, so that theorems quantify over every possible behaviour of
those collaborators. ast.parse (mode eval) is modelled by an executable
recursive-descent parser pyParse for the restricted expression grammar
the chatbot uses (identifiers, string literals, integers, booleans,
None, attribute access, and nested calls); ast.literal_eval is modelled
by literal_eval over the same AST type. -/

/-! Python AST fragment, mirroring the ast module nodes the program can
meet: Constant, Name, Call, Attribute, comprehensions, and unary minus
on a number. -/

inductive PyLit where
  | str (s : String)
  | int (n : Int)
  | bool (b : Bool)
  | noneL
deriving DecidableEq, Repr

inductive PyExpr where
  | const (l : PyLit)
  | name (id : String)
  | call (func : PyExpr) (args : List PyExpr)
  | attr (obj : PyExpr) (field : String)
  | comp (inner : PyExpr)
  | unaryNeg (e : PyExpr)
deriving Repr

/-- Values that ast.literal_eval can produce on this AST fragment. -/
inductive PyVal where
  | str (s : String)
  | int (n : Int)
  | bool (b : Bool)
  | noneV
deriving DecidableEq, Repr

/-- Model of ast.literal_eval restricted to the embedded AST fragment:
it evaluates constants (and a unary minus applied directly to an integer
constant) and raises ValueError on every other node shape. -/
def literal_eval : PyExpr → Except String PyVal
  | .const (.str s) => .ok (.str s)
  | .const (.int n) => .ok (.int n)
  | .const (.bool b) => .ok (.bool b)
  | .const .noneL => .ok .noneV
  | .unaryNeg (.const (.int n)) => .ok (.int (-n))
  | .unaryNeg _ => .error "malformed node or string"
  | .name _ => .error "malformed node or string"
  | .call _ _ => .error "malformed node or string"
  | .attr _ _ => .error "malformed node or string"
  | .comp _ => .error "malformed node or string"

/-! Recursive-descent parser modelling ast.parse (mode eval) on the
restricted grammar. It is fuel-indexed so that every definition is
executable and kernel-reducible. -/

def isIdentStart (c : Char) : Bool := c.isAlpha || c = '_'

def isIdentChar (c : Char) : Bool := c.isAlphanum || c = '_'

def skipWs : List Char → List Char
  | c :: cs => if c = ' ' || c = '\n' || c = '\t' || c = '\r' then skipWs cs else c :: cs
  | [] => []

/-- Splits the longest run of identifier characters off the front. -/
def takeWhileId : List Char → (List Char × List Char)
  | [] => ([], [])
  | c :: cs =>
    if isIdentChar c then
      let p := takeWhileId cs
      (c :: p.1, p.2)
    else ([], c :: cs)

/-- Splits the longest run of digits off the front. -/
def takeWhileDigit : List Char → (List Char × List Char)
  | [] => ([], [])
  | c :: cs =>
    if c.isDigit then
      let p := takeWhileDigit cs
      (c :: p.1, p.2)
    else ([], c :: cs)

def digitsVal (l : List Char) : Nat :=
  l.foldl (fun n c => n * 10 + (c.toNat - 48)) 0

/-- Consumes characters of a string literal up to the closing quote q.
Escape sequences are outside the modelled subset. -/
def takeStrChars (q : Char) : List Char → Option (List Char × List Char)
  | [] => none
  | c :: cs =>
    if c = q then some ([], cs)
    else
      match takeStrChars q cs with
      | some (s, r) => some (c :: s, r)
      | none => none

/-- The three parsing tasks: a full expression, a parenthesised argument
list, and the postfix chain of calls and attribute accesses after an
atom. -/
inductive PTask where
  | expr
  | args
  | trail (base : PyExpr)

inductive PRes where
  | expr (e : PyExpr) (rest : List Char)
  | argList (es : List PyExpr) (rest : List Char)

def parseP : Nat → PTask → List Char → Except String PRes
  | 0, _, _ => .error "SyntaxError: parser fuel exhausted"
  | fuel + 1, .expr, l =>
    match skipWs l with
    | [] => .error "SyntaxError: unexpected end of input"
    | c :: cs =>
      if c = '"' then
        match takeStrChars '"' cs with
        | some (s, r) => parseP fuel (.trail (.const (.str (String.mk s)))) r
        | none => .error "SyntaxError: unterminated string literal"
      else if c = '\'' then
        match takeStrChars '\'' cs with
        | some (s, r) => parseP fuel (.trail (.const (.str (String.mk s)))) r
        | none => .error "SyntaxError: unterminated string literal"
      else if c.isDigit then
        let p := takeWhileDigit (c :: cs)
        parseP fuel (.trail (.const (.int (digitsVal p.1)))) p.2
      else if c = '-' then
        match skipWs cs with
        | d :: ds =>
          if d.isDigit then
            let p := takeWhileDigit (d :: ds)
            parseP fuel (.trail (.unaryNeg (.const (.int (digitsVal p.1))))) p.2
          else .error "SyntaxError: invalid syntax"
        | [] => .error "SyntaxError: unexpected end of input"
      else if isIdentStart c then
        let p := takeWhileId (c :: cs)
        let idStr := String.mk p.1
        if idStr = "True" then parseP fuel (.trail (.const (.bool true))) p.2
        else if idStr = "False" then parseP fuel (.trail (.const (.bool false))) p.2
        else if idStr = "None" then parseP fuel (.trail (.const .noneL)) p.2
        else parseP fuel (.trail (.name idStr)) p.2
      else .error "SyntaxError: invalid syntax"
  | fuel + 1, .trail base, l =>
    match skipWs l with
    | '(' :: r =>
      match parseP fuel .args r with
      | .ok (.argList as r2) => parseP fuel (.trail (.call base as)) r2
      | .ok _ => .error "SyntaxError: internal"
      | .error e => .error e
    | '.' :: r =>
      match skipWs r with
      | c :: cs =>
        if isIdentStart c then
          let p := takeWhileId (c :: cs)
          parseP fuel (.trail (.attr base (String.mk p.1))) p.2
        else .error "SyntaxError: invalid syntax"
      | [] => .error "SyntaxError: unexpected end of input"
    | rest => .ok (.expr base rest)
  | fuel + 1, .args, l =>
    match skipWs l with
    | ')' :: r => .ok (.argList [] r)
    | l2 =>
      match parseP fuel .expr l2 with
      | .ok (.expr a rest) =>
        match skipWs rest with
        | ')' :: r2 => .ok (.argList [a] r2)
        | ',' :: r2 =>
          match parseP fuel .args r2 with
          | .ok (.argList as r3) => .ok (.argList (a :: as) r3)
          | .ok _ => .error "SyntaxError: internal"
          | .error e => .error e
        | _ => .error "SyntaxError: expected comma or closing paren"
      | .ok _ => .error "SyntaxError: internal"
      | .error e => .error e

/-- Model of ast.parse(s, mode=eval): parse one whole expression;
anything but a single expression spanning the entire input is a
SyntaxError. -/
def pyParse (s : String) : Except String PyExpr :=
  match parseP (2 * s.length + 16) .expr s.toList with
  | .ok (.expr e rest) =>
    if (skipWs rest).isEmpty then .ok e else .error "SyntaxError: invalid syntax"
  | .ok _ => .error "SyntaxError: internal"
  | .error e => .error e

/-- The list comprehension of src/app.py line 34: literal_eval each
positional argument in order; the first exception propagates. -/
def evalArgs : List PyExpr → Except String (List PyVal)
  | [] => .ok []
  | a :: as =>
    match literal_eval a with
    | .error e => .error e
    | .ok v =>
      match evalArgs as with
      | .error e => .error e
      | .ok vs => .ok (v :: vs)

/-- The body of parse_function_call_args after ast.parse: take the Call
node apart and literal_eval each positional argument, in order, failing
at the first non-literal; a non-Call expression raises ValueError
(src/app.py lines 29 to 37). -/
def extract_call_args : PyExpr → Except String (List PyVal)
  | .call _ args => evalArgs args
  | _ => .error "Not a valid function call"

/-- parse_function_call_args (src/app.py lines 24 to 37): ast.parse the
text in eval mode, then extract the literal argument values of the Call
node. Any parse error or literal_eval error propagates. -/
def parse_function_call_args (s : String) : Except String (List PyVal) :=
  match pyParse s with
  | .ok t => extract_call_args t
  | .error e => .error e

/-- An argument shape the spec calls non-literal: an identifier, an
attribute access, a nested call, or a comprehension. -/
def nonLiteralArg (a : PyExpr) : Prop :=
  (∃ i, a = .name i) ∨ (∃ o f, a = .attr o f) ∨
  (∃ f l, a = .call f l) ∨ (∃ e, a = .comp e)

/-! Conversation data model. -/

structure Message where
  role : String
  content : String
deriving DecidableEq, Repr

def systemMsg (s : String) : Message := ⟨"system", s⟩

def assistantMsg (s : String) : Message := ⟨"assistant", s⟩

def userMsg (s : String) : Message := ⟨"user", s⟩

/-- Python in-operator on strings: substring containment. -/
def leadsWith : List Char → List Char → Bool
  | [], _ => true
  | _ :: _, [] => false
  | p :: ps, c :: cs => p == c && leadsWith ps cs

def hasSubList (pat : List Char) : List Char → Bool
  | [] => leadsWith pat []
  | c :: cs => leadsWith pat (c :: cs) || hasSubList pat cs

def strContains (s pat : String) : Bool := hasSubList pat.toList s.toList

/-- SYSTEM_PROMPT (src/app.py lines 44 to 59). -/
def SYSTEM_PROMPT : String :=
  "\nYou are a helpful movie chatbot who helps answer questions about movies playing in theaters. If a user asks for recent information, output a function call. If you need to call a function, the function call should be the only response — DO NOT INCLUDE OTHER TEXT. Call functions using Python syntax in plain text, no code blocks. \nIf you do not have sufficient inputs from the user to call a function, ask the user for more information. If a user is looking to buy a ticket but has not confirmed whether to buy a ticket yet, ask the user to confirm their ticket purchase. \nYou have access to the following functions:\nget_now_playing_movies() - Returns a list of movies currently playing in theaters.\nget_showtimes(movie, location) - Returns showtimes for a movie in a given location.\nconfirm_ticket_purchase(theater, movie, showtime) - Confirms a ticket purchase for a movie in a given theater and showtime.\nbuy_ticket(theater. movie, showtime) - Buys a ticket for a movie in a given theater and showtime.\nget_reviews(movie_id) - Returns reviews for a movie.\n"

/-- The side-channel decision prompt of add_review_context_if_needed
(src/app.py lines 88 to 104). -/
def AUGMENT_PROMPT : String :=
  "Based on the conversation, determine if the topic is about a specific movie. Determine if the user is asking a question that would be aided by knowing what critics are saying about the movie. Determine if the reviews for that movie have already been provided in the conversation. If so, do not fetch reviews.\n    \n    Your only role is to evaluate the conversation, and decide whether to fetch reviews.\n\n    Output the current movie, id, a boolean to fetch reviews in JSON format, and your\n    rationale. Do not output as a code block.\n\n    \x7b\n        \"movie\": \"title\",\n        \"id\": 123,\n        \"fetch_reviews\": true\n        \"rationale\": \"reasoning\"\n    \x7d\n    "

/-- The message history installed by on_chat_start (src/app.py lines 62
to 66). -/
def on_chat_start_history : List Message := [systemMsg SYSTEM_PROMPT]

/-- The decision object json.loads produces from the side-channel
response, read through dict.get with the defaults the code uses
(src/app.py lines 113 to 116). -/
structure AugDecision where
  movie : String
  id : Int
  fetch_reviews : Bool
  rationale : String
deriving DecidableEq, Repr

/-- One external capability invocation performed by the program. -/
inductive Cap where
  | nowPlaying
  | showtimes (movie location : PyVal)
  | buyTicket (theater movie showtime : PyVal)
  | reviews (id : Int)
deriving DecidableEq, Repr

/-- External collaborators of the loop: the streaming and non-streaming
model-generation calls (a function of the history they are shown), the
parsed side-channel decision (the outcome of json.loads on the decision
response), and the movie_functions handlers, each returning either a
result text or the message of the exception it raises. -/
structure Oracle where
  augment : List Message → Except String AugDecision
  generate : List Message → String
  get_now_playing_movies : Except String String
  get_showtimes : PyVal → PyVal → Except String String
  buy_ticket : PyVal → PyVal → PyVal → Except String String
  get_reviews : Int → Except String String

/-- The message list add_review_context_if_needed sends to the model:
a copy of the history with the temporary prompt substituted at index 0,
plus the same prompt appended (src/app.py lines 106 to 108). -/
def augSentMessages (h : List Message) : List Message :=
  (h.set 0 (systemMsg AUGMENT_PROMPT)) ++ [systemMsg AUGMENT_PROMPT]

/-- add_review_context_if_needed (src/app.py lines 87 to 123): call the
model on the substituted copy, json.loads the decision (a parse failure
propagates before any mutation), and if fetch_reviews is set call
get_reviews and append one system review-context message to the real
history; a get_reviews failure is caught and its description appended
instead. Returns the updated history and the capability calls made. -/
def add_review_context_if_needed (o : Oracle) (h : List Message) :
    Except String (List Message × List Cap) :=
  match o.augment (augSentMessages h) with
  | .error e => .error e
  | .ok d =>
    if d.fetch_reviews then
      match o.get_reviews d.id with
      | .ok r =>
        .ok (h ++ [systemMsg ("MOVIE REVIEW CONTEXT:\n\n" ++ ("Reviews for " ++ d.movie ++ ":\n\n" ++ r))], [Cap.reviews d.id])
      | .error e =>
        .ok (h ++ [systemMsg ("MOVIE REVIEW CONTEXT:\n\n" ++ ("An error occurred while fetching reviews: " ++ e))], [Cap.reviews d.id])
    else .ok (h, [])

/-! The dispatch loop of on_message (src/app.py lines 138 to 217). -/

/-- The branch the elif chain of the loop selects. -/
inductive Branch where
  | nowPlaying
  | showtimes
  | confirm
  | buy
deriving DecidableEq, Repr, Fintype

/-- The substring each elif branch tests for (src/app.py lines 139, 156,
174, 189). -/
def detectStr : Branch → String
  | .nowPlaying => "get_now_playing_movies()"
  | .showtimes => "get_showtimes("
  | .confirm => "confirm_ticket_purchase("
  | .buy => "buy_ticket("

/-- Position of each branch in the elif chain; lower is tested first. -/
def priority : Branch → Nat
  | .nowPlaying => 0
  | .showtimes => 1
  | .confirm => 2
  | .buy => 3

def capName : Branch → String
  | .nowPlaying => "get_now_playing_movies"
  | .showtimes => "get_showtimes"
  | .confirm => "confirm_ticket_purchase"
  | .buy => "buy_ticket"

def capArity : Branch → Nat
  | .nowPlaying => 0
  | .showtimes => 2
  | .confirm => 3
  | .buy => 3

/-- The elif chain over the response text: the first branch whose
detection substring occurs in the text, if any. -/
def inspect (resp : String) : Option Branch :=
  if strContains resp (detectStr .nowPlaying) then some .nowPlaying
  else if strContains resp (detectStr .showtimes) then some .showtimes
  else if strContains resp (detectStr .confirm) then some .confirm
  else if strContains resp (detectStr .buy) then some .buy
  else none

/-- Loop state for one turn: the session history and the capability
calls performed so far. -/
structure LoopState where
  history : List Message
  calls : List Cap
deriving DecidableEq, Repr

/-- generate_response followed by the assistant append (src/app.py lines
134 to 135 and the analogous pairs inside the loop): the model is shown
the current history, and its full streamed text is appended as an
assistant message. -/
def genAppend (o : Oracle) (st : LoopState) : LoopState :=
  ⟨st.history ++ [assistantMsg (o.generate st.history)], st.calls⟩

/-- What one iteration of the while loop does with the current response
text. raiseErr is an exception propagating out of on_message; halt is
the break of the final else. -/
inductive CycleStep where
  | halt
  | raiseErr (e : String) (st : LoopState)
  | cont (st : LoopState) (resp : String)
deriving DecidableEq, Repr

/-- The get_now_playing_movies branch (src/app.py lines 139 to 155): the
handler is invoked with no try/except, so a handler exception
propagates; on success its text is appended as a system message and the
model is re-generated. -/
def nowPlayingCycle (o : Oracle) (st : LoopState) : CycleStep :=
  match o.get_now_playing_movies with
  | .error e => .raiseErr e ⟨st.history, st.calls ++ [Cap.nowPlaying]⟩
  | .ok r =>
    let st2 : LoopState :=
      ⟨st.history ++ [systemMsg ("Current movies:\n\n " ++ r)], st.calls ++ [Cap.nowPlaying]⟩
    .cont (genAppend o st2) (o.generate st2.history)

/-- The get_showtimes branch (src/app.py lines 156 to 173): the
argument parse and the two-variable unpack are outside any try/except
and their exceptions propagate; the handler invocation itself is
guarded, a handler exception becoming a system context message. -/
def showtimesCycle (o : Oracle) (st : LoopState) (resp : String) : CycleStep :=
  match parse_function_call_args resp with
  | .error e => .raiseErr e st
  | .ok [movie, location] =>
    let showtimes : String :=
      match o.get_showtimes movie location with
      | .ok r => r
      | .error e => "An error occurred while fetching showtimes: " ++ e
    let st2 : LoopState :=
      ⟨st.history ++ [systemMsg showtimes], st.calls ++ [Cap.showtimes movie location]⟩
    .cont (genAppend o st2) (o.generate st2.history)
  | .ok _ => .raiseErr "ValueError: cannot unpack parsed arguments into (movie, location)" st

/-- The confirm_ticket_purchase branch (src/app.py lines 174 to 188): no
capability is invoked and nothing is parsed; an acknowledgment system
message quoting the response text is appended and the model is
re-generated. -/
def confirmCycle (o : Oracle) (st : LoopState) (resp : String) : CycleStep :=
  let st2 : LoopState :=
    ⟨st.history ++ [systemMsg ("The user has confirmed their purchase for " ++ resp)], st.calls⟩
  .cont (genAppend o st2) (o.generate st2.history)

/-- The buy_ticket branch (src/app.py lines 189 to 214): parse and
three-variable unpack outside any try/except; the handler invocation is
guarded, a handler exception becoming a system context message. -/
def buyCycle (o : Oracle) (st : LoopState) (resp : String) : CycleStep :=
  match parse_function_call_args resp with
  | .error e => .raiseErr e st
  | .ok [theater, movie, showtime] =>
    let confirmation : String :=
      match o.buy_ticket theater movie showtime with
      | .ok r => r
      | .error e => "An error occurred while purchasing the ticket: " ++ e
    let st2 : LoopState :=
      ⟨st.history ++ [systemMsg confirmation], st.calls ++ [Cap.buyTicket theater movie showtime]⟩
    .cont (genAppend o st2) (o.generate st2.history)
  | .ok _ => .raiseErr "ValueError: cannot unpack parsed arguments into (theater, movie, showtime)" st

/-- One iteration of the while True loop (src/app.py lines 138 to 217):
the elif chain selects a branch by substring detection, and the final
else breaks. -/
def dispatchCycle (o : Oracle) (st : LoopState) (resp : String) : CycleStep :=
  match inspect resp with
  | some .nowPlaying => nowPlayingCycle o st
  | some .showtimes => showtimesCycle o st resp
  | some .confirm => confirmCycle o st resp
  | some .buy => buyCycle o st resp
  | none => .halt

/-- How a turn of on_message can end: finished is the break (the last
assistant message is the final answer), raised is an exception escaping
on_message, running means the loop is still iterating after the given
number of cycles -- the while True loop has no cycle bound of its own,
so a fuel parameter indexes how many cycles we unroll. -/
inductive Outcome where
  | finished
  | raised (e : String)
  | running
deriving DecidableEq, Repr

structure LoopResult where
  outcome : Outcome
  state : LoopState
deriving DecidableEq, Repr

/-- Unrolls the while True loop for at most fuel cycles. -/
def dispatchLoop (o : Oracle) : Nat → LoopState → String → LoopResult
  | 0, st, _ => ⟨.running, st⟩
  | fuel + 1, st, resp =>
    match dispatchCycle o st resp with
    | .halt => ⟨.finished, st⟩
    | .raiseErr e st2 => ⟨.raised e, st2⟩
    | .cont st2 resp2 => dispatchLoop o fuel st2 resp2

/-- on_message (src/app.py lines 126 to 217): append the user message,
run the augmentation pre-pass (its exceptions propagate uncaught), then
generate the first assistant response and enter the dispatch loop. -/
def on_message (o : Oracle) (fuel : Nat) (h0 : List Message) (userText : String) : LoopResult :=
  match add_review_context_if_needed o (h0 ++ [userMsg userText]) with
  | .error e => ⟨.raised e, ⟨h0 ++ [userMsg userText], []⟩⟩
  | .ok (h2, cs) =>
    dispatchLoop o fuel (genAppend o ⟨h2, cs⟩) (o.generate h2)

/-! Concrete oracle instances used by the closed counterexample and
witness theorems below. -/

/-- A benign environment: every handler succeeds, the side-channel
decision declines to fetch reviews, and the model answers with plain
text containing no call substring. -/
def oQuiet : Oracle :=
  { augment := fun _ => .ok ⟨"", 0, false, ""⟩
    generate := fun _ => "Enjoy your movie!"
    get_now_playing_movies := .ok "Movie A, Movie B"
    get_showtimes := fun _ _ => .ok "7pm, 9pm"
    buy_ticket := fun _ _ _ => .ok "Ticket purchased."
    get_reviews := fun _ => .ok "Critics loved it" }

/-- A model that re-emits the now-playing call text on every generation. -/
def oRep : Oracle := { oQuiet with generate := fun _ => "get_now_playing_movies()" }

/-- An environment where get_now_playing_movies raises. -/
def oNPFail : Oracle := { oQuiet with get_now_playing_movies := .error "service unavailable" }

/-- An environment where get_showtimes raises. -/
def oSTFail : Oracle := { oQuiet with get_showtimes := fun _ _ => .error "no showtimes found" }

/-- An environment where the side-channel decision text fails json.loads. -/
def oAugFail : Oracle :=
  { oQuiet with augment := fun _ => .error "Expecting value: line 1 column 1 (char 0)" }

/-- An environment whose side-channel decision asks to fetch reviews. -/
def oFetch : Oracle :=
  { oQuiet with augment := fun _ => .ok ⟨"Dune", 438631, true, "the user asked what critics think"⟩ }

/-! Helper lemmas shared by several claims. -/

theorem evalArgs_error_of_mem {args : List PyExpr} {a : PyExpr} {m : String}
    (ha : a ∈ args) (he : literal_eval a = .error m) :
    ∃ msg, evalArgs args = .error msg := by
  induction args with
  | nil => cases ha
  | cons x xs ih =>
    rcases List.mem_cons.mp ha with rfl | hmem
    · exact ⟨m, by simp [evalArgs, he]⟩
    · cases hx : literal_eval x with
      | error e2 => exact ⟨e2, by simp [evalArgs, hx]⟩
      | ok v =>
        obtain ⟨msg, hmsg⟩ := ih hmem
        exact ⟨msg, by simp [evalArgs, hx, hmsg]⟩

theorem genAppend_extends (o : Oracle) (h : List Message) (cs : List Cap) (m : Message) :
    (genAppend o ⟨h ++ [m], cs⟩).history =
      h ++ [m, assistantMsg (o.generate (h ++ [m]))] := by
  simp [genAppend]

theorem singleton_not_reviews (c0 : Cap) (hne : ∀ i, c0 ≠ Cap.reviews i) :
    ∀ c ∈ [c0], ∀ i, c ≠ Cap.reviews i := by
  intro c hc i
  rw [List.mem_singleton] at hc
  subst hc
  exact hne i

/-- C1: For every input text, the call extractor parses the text
syntactically (ast.parse in eval mode) and evaluates only argument
positions, through the literal-only evaluator literal_eval; the result
never depends on the callee expression, so the callee name is never
executed as code; and an argument that is an identifier, an attribute
access, a nested call, or a comprehension makes literal_eval raise, so
the extractor fails with an error instead of producing a value. -/
theorem C1_call_extractor_safe :
    (∀ s e, pyParse s = .error e → parse_function_call_args s = .error e) ∧
    (∀ s f args, pyParse s = .ok (.call f args) →
      parse_function_call_args s = evalArgs args) ∧
    (∀ f g args, extract_call_args (.call f args) = extract_call_args (.call g args)) ∧
    (∀ s t, pyParse s = .ok t → (∀ f args, t ≠ .call f args) →
      parse_function_call_args s = .error "Not a valid function call") ∧
    (∀ a, nonLiteralArg a → literal_eval a = .error "malformed node or string") ∧
    (∀ s f args a, pyParse s = .ok (.call f args) → a ∈ args → nonLiteralArg a →
      ∃ msg, parse_function_call_args s = .error msg) := by
  have hlit : ∀ a, nonLiteralArg a → literal_eval a = .error "malformed node or string" := by
    intro a ha
    rcases ha with ⟨i, rfl⟩ | ⟨ob, f, rfl⟩ | ⟨f, l, rfl⟩ | ⟨e, rfl⟩ <;> rfl
  refine ⟨?_, ?_, ?_, ?_, hlit, ?_⟩
  · intro s e h
    simp [parse_function_call_args, h]
  · intro s f args h
    simp [parse_function_call_args, h, extract_call_args]
  · intro f g args
    rfl
  · intro s t h hne
    cases t with
    | call f args => exact absurd rfl (hne f args)
    | const l => simp [parse_function_call_args, h, extract_call_args]
    | name i => simp [parse_function_call_args, h, extract_call_args]
    | attr ob fl => simp [parse_function_call_args, h, extract_call_args]
    | comp e => simp [parse_function_call_args, h, extract_call_args]
    | unaryNeg e => simp [parse_function_call_args, h, extract_call_args]
  · intro s f args a hp ha hnl
    obtain ⟨msg, hmsg⟩ := evalArgs_error_of_mem ha (hlit a hnl)
    exact ⟨msg, by simp [parse_function_call_args, hp, extract_call_args, hmsg]⟩

/-- Witness for C1 at the concrete input f(x): the single argument is a
bare identifier, so extraction fails with an error. -/
theorem C1_call_extractor_safe_w :
    pyParse "f(x)" = .ok (.call (.name "f") [.name "x"]) ∧
    (∃ msg, parse_function_call_args "f(x)" = .error msg) :=
  ⟨rfl, C1_call_extractor_safe.2.2.2.2.2 "f(x)" (.name "f") [.name "x"] (.name "x")
    rfl (List.Mem.head _) (Or.inl ⟨"x", rfl⟩)⟩

/-- Case analysis of one dispatch cycle: it halts, raises with the
history unchanged (and at most the now-playing call recorded), or
continues with an extended history and newly recorded calls that are
never get_reviews. -/
theorem dispatchCycle_cases (o : Oracle) (st : LoopState) (resp : String) :
    dispatchCycle o st resp = .halt ∨
    (∃ e st2, dispatchCycle o st resp = .raiseErr e st2 ∧ st2.history = st.history ∧
      (st2.calls = st.calls ∨ st2.calls = st.calls ++ [Cap.nowPlaying])) ∨
    (∃ st2 r2, dispatchCycle o st resp = .cont st2 r2 ∧
      (∃ t, st2.history = st.history ++ t) ∧
      (∃ new, st2.calls = st.calls ++ new ∧ ∀ c ∈ new, ∀ i, c ≠ Cap.reviews i)) := by
  unfold dispatchCycle
  cases hI : inspect resp with
  | none => exact Or.inl rfl
  | some b =>
    cases b with
    | nowPlaying =>
      unfold nowPlayingCycle
      cases hR : o.get_now_playing_movies with
      | error e => exact Or.inr (Or.inl ⟨e, _, rfl, rfl, Or.inr rfl⟩)
      | ok r =>
        refine Or.inr (Or.inr ⟨_, _, rfl, ⟨_, genAppend_extends o _ _ _⟩, [Cap.nowPlaying], rfl, ?_⟩)
        exact singleton_not_reviews _ (fun i h => Cap.noConfusion h)
    | showtimes =>
      unfold showtimesCycle
      cases hP : parse_function_call_args resp with
      | error e => exact Or.inr (Or.inl ⟨e, st, rfl, rfl, Or.inl rfl⟩)
      | ok vals =>
        rcases vals with _ | ⟨a, _ | ⟨b, _ | ⟨c, t⟩⟩⟩
        · exact Or.inr (Or.inl ⟨_, st, rfl, rfl, Or.inl rfl⟩)
        · exact Or.inr (Or.inl ⟨_, st, rfl, rfl, Or.inl rfl⟩)
        · refine Or.inr (Or.inr ⟨_, _, rfl, ⟨_, genAppend_extends o _ _ _⟩, [Cap.showtimes a b], rfl, ?_⟩)
          exact singleton_not_reviews _ (fun i h => Cap.noConfusion h)
        · exact Or.inr (Or.inl ⟨_, st, rfl, rfl, Or.inl rfl⟩)
    | confirm =>
      unfold confirmCycle
      refine Or.inr (Or.inr ⟨_, _, rfl, ⟨_, genAppend_extends o _ _ _⟩, [], by simp [genAppend], ?_⟩)
      intro c hc
      cases hc
    | buy =>
      unfold buyCycle
      cases hP : parse_function_call_args resp with
      | error e => exact Or.inr (Or.inl ⟨e, st, rfl, rfl, Or.inl rfl⟩)
      | ok vals =>
        rcases vals with _ | ⟨a, _ | ⟨b, _ | ⟨c, _ | ⟨d, t⟩⟩⟩⟩
        · exact Or.inr (Or.inl ⟨_, st, rfl, rfl, Or.inl rfl⟩)
        · exact Or.inr (Or.inl ⟨_, st, rfl, rfl, Or.inl rfl⟩)
        · exact Or.inr (Or.inl ⟨_, st, rfl, rfl, Or.inl rfl⟩)
        · refine Or.inr (Or.inr ⟨_, _, rfl, ⟨_, genAppend_extends o _ _ _⟩, [Cap.buyTicket a b c], rfl, ?_⟩)
          exact singleton_not_reviews _ (fun i h => Cap.noConfusion h)
        · exact Or.inr (Or.inl ⟨_, st, rfl, rfl, Or.inl rfl⟩)

/-- Unrolling the loop only appends to the history, and every
newly recorded capability call is one of the four loop branches, never
get_reviews. -/
theorem dispatchLoop_extends (o : Oracle) (fuel : Nat) :
    ∀ (st : LoopState) (resp : String),
    (∃ t, (dispatchLoop o fuel st resp).state.history = st.history ++ t) ∧
    (∀ c ∈ (dispatchLoop o fuel st resp).state.calls, c ∈ st.calls ∨ ∀ i, c ≠ Cap.reviews i) := by
  induction fuel with
  | zero =>
    intro st resp
    constructor
    · exact ⟨[], by simp [dispatchLoop]⟩
    · intro c hc
      simp only [dispatchLoop] at hc
      exact Or.inl hc
  | succ n ih =>
    intro st resp
    rcases dispatchCycle_cases o st resp with hh | ⟨e, st2, hr, hist2, hcalls2⟩ |
      ⟨st2, r2, hcont, ⟨t, ht⟩, ⟨new, hnew, hnr⟩⟩
    · constructor
      · exact ⟨[], by simp [dispatchLoop, hh]⟩
      · intro c hc
        simp only [dispatchLoop, hh] at hc
        exact Or.inl hc
    · constructor
      · exact ⟨[], by simp [dispatchLoop, hr, hist2]⟩
      · intro c hc
        simp only [dispatchLoop, hr] at hc
        rcases hcalls2 with h2 | h2
        · rw [h2] at hc
          exact Or.inl hc
        · rw [h2] at hc
          rcases List.mem_append.mp hc with h3 | h3
          · exact Or.inl h3
          · rw [List.mem_singleton] at h3
            subst h3
            exact Or.inr (fun i h => Cap.noConfusion h)
    · obtain ⟨⟨t2, ht2⟩, hrec⟩ := ih st2 r2
      constructor
      · refine ⟨t ++ t2, ?_⟩
        simp only [dispatchLoop, hcont]
        rw [ht2, ht, List.append_assoc]
      · intro c hc
        simp only [dispatchLoop, hcont] at hc
        rcases hrec c hc with h2 | h2
        · rw [hnew] at h2
          rcases List.mem_append.mp h2 with h3 | h3
          · exact Or.inl h3
          · exact Or.inr (hnr c h3)
        · exact Or.inr h2

/-- The augmentation step either leaves the history unchanged or appends
exactly one system review-context message, recording the one get_reviews
call it made. -/
theorem aug_cases (o : Oracle) (h : List Message) {h2 : List Message} {cs : List Cap}
    (hok : add_review_context_if_needed o h = .ok (h2, cs)) :
    (h2 = h ∧ cs = []) ∨
    (∃ r, h2 = h ++ [systemMsg ("MOVIE REVIEW CONTEXT:\n\n" ++ r)] ∧ ∃ i, cs = [Cap.reviews i]) := by
  unfold add_review_context_if_needed at hok
  split at hok
  · exact Except.noConfusion hok
  · split at hok
    · split at hok
      · simp only [Except.ok.injEq, Prod.mk.injEq] at hok
        exact Or.inr ⟨_, hok.1.symm, _, hok.2.symm⟩
      · simp only [Except.ok.injEq, Prod.mk.injEq] at hok
        exact Or.inr ⟨_, hok.1.symm, _, hok.2.symm⟩
    · simp only [Except.ok.injEq, Prod.mk.injEq] at hok
      exact Or.inl ⟨hok.1.symm, hok.2.symm⟩

/-- C8: The session history created at chat start keeps a system message
with the instruction prompt at index 0, and a whole turn of on_message
-- augmentation, generation, and every dispatch cycle, whether the turn
finishes, raises, or is still looping -- only ever appends to the
history, so the head message is preserved. -/
theorem C8_session_append_only (o : Oracle) (fuel : Nat) (h0 : List Message) (u : String) :
    (∃ t, (on_message o fuel h0 u).state.history = h0 ++ t) ∧
    (∀ m0, h0.head? = some m0 → ((on_message o fuel h0 u).state.history).head? = some m0) ∧
    on_chat_start_history.head? = some (systemMsg SYSTEM_PROMPT) := by
  have hext : ∃ t, (on_message o fuel h0 u).state.history = h0 ++ t := by
    cases hA : add_review_context_if_needed o (h0 ++ [userMsg u]) with
    | error e =>
      refine ⟨[userMsg u], ?_⟩
      simp only [on_message, hA]
    | ok pr =>
      obtain ⟨h2, cs⟩ := pr
      have heq : on_message o fuel h0 u =
          dispatchLoop o fuel (genAppend o ⟨h2, cs⟩) (o.generate h2) := by
        simp only [on_message, hA]
      obtain ⟨t1, rfl⟩ : ∃ t1, h2 = (h0 ++ [userMsg u]) ++ t1 := by
        rcases aug_cases o _ hA with ⟨rfl, _⟩ | ⟨r, hr, _, _⟩
        · exact ⟨[], by simp⟩
        · exact ⟨_, hr⟩
      obtain ⟨t2, ht2⟩ := (dispatchLoop_extends o fuel
        (genAppend o ⟨(h0 ++ [userMsg u]) ++ t1, cs⟩)
        (o.generate ((h0 ++ [userMsg u]) ++ t1))).1
      rw [heq, ht2]
      exact ⟨[userMsg u] ++ t1 ++
        [assistantMsg (o.generate ((h0 ++ [userMsg u]) ++ t1))] ++ t2, by simp [genAppend]⟩
  refine ⟨hext, ?_, rfl⟩
  intro m0 hm
  obtain ⟨t, ht⟩ := hext
  rw [ht]
  cases h0 with
  | nil => exact absurd hm (by simp)
  | cons a l =>
    rw [List.head?_cons] at hm
    rw [List.cons_append, List.head?_cons]
    exact hm

/-- Witness for C8: a concrete turn starting from the chat-start history
keeps the instruction system message at index 0. -/
theorem C8_session_append_only_w :
    ((on_message oQuiet 2 on_chat_start_history "hi").state.history).head? =
      some (systemMsg SYSTEM_PROMPT) :=
  (C8_session_append_only oQuiet 2 on_chat_start_history "hi").2.1
    (systemMsg SYSTEM_PROMPT) rfl

/-- C10: The dispatch loop never records a get_reviews invocation; a
response that mentions get_reviews but no loop-dispatched capability
substring makes the loop break immediately, dispatching nothing; and
get_reviews is reachable through the Context Augmenter, whose
fetch_reviews decision triggers the one pre-resolved get_reviews call. -/
theorem C10_loop_never_fetches_reviews (o : Oracle) (fuel : Nat) (st : LoopState) (resp : String) :
    (∀ c ∈ (dispatchLoop o fuel st resp).state.calls, c ∈ st.calls ∨ ∀ i, c ≠ Cap.reviews i) ∧
    (strContains resp "get_reviews(" = true →
      strContains resp "get_now_playing_movies()" = false →
      strContains resp "get_showtimes(" = false →
      strContains resp "confirm_ticket_purchase(" = false →
      strContains resp "buy_ticket(" = false →
      dispatchLoop o (fuel + 1) st resp = ⟨.finished, st⟩) ∧
    (∀ (d : AugDecision) (h : List Message),
      o.augment (augSentMessages h) = .ok d → d.fetch_reviews = true →
      ∃ h2, add_review_context_if_needed o h = .ok (h2, [Cap.reviews d.id])) := by
  refine ⟨(dispatchLoop_extends o fuel st resp).2, ?_, ?_⟩
  · intro hg h1 h2 h3 h4
    have hI : inspect resp = none := by
      simp [inspect, detectStr, h1, h2, h3, h4]
    have hc : dispatchCycle o st resp = .halt := by
      unfold dispatchCycle
      rw [hI]
    simp [dispatchLoop, hc]
  · intro d h hA hf
    cases hR : o.get_reviews d.id with
    | ok r =>
      exact ⟨h ++ [systemMsg ("MOVIE REVIEW CONTEXT:\n\n" ++
        ("Reviews for " ++ d.movie ++ ":\n\n" ++ r))],
        by simp [add_review_context_if_needed, hA, hf, hR]⟩
    | error e =>
      exact ⟨h ++ [systemMsg ("MOVIE REVIEW CONTEXT:\n\n" ++
        ("An error occurred while fetching reviews: " ++ e))],
        by simp [add_review_context_if_needed, hA, hf, hR]⟩

/-- Witness for C10: a get_reviews-only response terminates the loop with
nothing dispatched, and a fetch_reviews decision makes the augmenter
perform the pre-resolved get_reviews call. -/
theorem C10_loop_never_fetches_reviews_w :
    dispatchLoop oQuiet 1 ⟨[], []⟩ "get_reviews(456)" = ⟨.finished, ⟨[], []⟩⟩ ∧
    (∃ h2, add_review_context_if_needed oFetch [systemMsg SYSTEM_PROMPT] =
      .ok (h2, [Cap.reviews 438631])) :=
  ⟨(C10_loop_never_fetches_reviews oQuiet 0 ⟨[], []⟩ "get_reviews(456)").2.1 rfl rfl rfl rfl rfl,
   (C10_loop_never_fetches_reviews oFetch 0 ⟨[], []⟩ "").2.2
     ⟨"Dune", 438631, true, "the user asked what critics think"⟩ [systemMsg SYSTEM_PROMPT] rfl rfl⟩

/-- C2 (amended): When the argument-parse step of a dispatch cycle fails
-- the call-like text is not a valid literal-only call, or the parsed
argument count mismatches the unpack arity of the branch -- no
capability handler is invoked and the state is untouched, but the error
is not caught: the cycle raises and the turn aborts with the unhandled
error instead of terminating gracefully. -/
theorem C2_parse_failure_no_dispatch (o : Oracle) (st : LoopState) (resp : String) :
    (∀ e, inspect resp = some Branch.showtimes → parse_function_call_args resp = .error e →
      dispatchCycle o st resp = .raiseErr e st) ∧
    (∀ vals, inspect resp = some Branch.showtimes → parse_function_call_args resp = .ok vals →
      vals.length ≠ 2 →
      dispatchCycle o st resp =
        .raiseErr "ValueError: cannot unpack parsed arguments into (movie, location)" st) ∧
    (∀ e, inspect resp = some Branch.buy → parse_function_call_args resp = .error e →
      dispatchCycle o st resp = .raiseErr e st) ∧
    (∀ vals, inspect resp = some Branch.buy → parse_function_call_args resp = .ok vals →
      vals.length ≠ 3 →
      dispatchCycle o st resp =
        .raiseErr "ValueError: cannot unpack parsed arguments into (theater, movie, showtime)" st) ∧
    (∀ e st2 fuel, dispatchCycle o st resp = .raiseErr e st2 →
      dispatchLoop o (fuel + 1) st resp = ⟨.raised e, st2⟩) := by
  refine ⟨?_, ?_, ?_, ?_, ?_⟩
  · intro e hI hP
    simp only [dispatchCycle, hI, showtimesCycle, hP]
  · intro vals hI hP hlen
    rcases vals with _ | ⟨a, _ | ⟨b, _ | ⟨c, t⟩⟩⟩
    · simp only [dispatchCycle, hI, showtimesCycle, hP]
    · simp only [dispatchCycle, hI, showtimesCycle, hP]
    · exact absurd rfl hlen
    · simp only [dispatchCycle, hI, showtimesCycle, hP]
  · intro e hI hP
    simp only [dispatchCycle, hI, buyCycle, hP]
  · intro vals hI hP hlen
    rcases vals with _ | ⟨a, _ | ⟨b, _ | ⟨c, _ | ⟨d, t⟩⟩⟩⟩
    · simp only [dispatchCycle, hI, buyCycle, hP]
    · simp only [dispatchCycle, hI, buyCycle, hP]
    · simp only [dispatchCycle, hI, buyCycle, hP]
    · exact absurd rfl hlen
    · simp only [dispatchCycle, hI, buyCycle, hP]
  · intro e st2 fuel hcyc
    simp only [dispatchLoop, hcyc]

/-- Witness for C2 at concrete inputs: identifier arguments raise the
literal_eval error, a one-argument call raises the unpack error, and the
loop surfaces the raise as an aborted turn. -/
theorem C2_parse_failure_no_dispatch_w :
    dispatchCycle oQuiet ⟨[], []⟩ "get_showtimes(x, y)" =
      .raiseErr "malformed node or string" ⟨[], []⟩ ∧
    dispatchCycle oQuiet ⟨[], []⟩ "get_showtimes(\"Dune\")" =
      .raiseErr "ValueError: cannot unpack parsed arguments into (movie, location)" ⟨[], []⟩ ∧
    dispatchLoop oQuiet 1 ⟨[], []⟩ "get_showtimes(x, y)" =
      ⟨.raised "malformed node or string", ⟨[], []⟩⟩ :=
  ⟨(C2_parse_failure_no_dispatch oQuiet ⟨[], []⟩ "get_showtimes(x, y)").1
      "malformed node or string" rfl rfl,
   (C2_parse_failure_no_dispatch oQuiet ⟨[], []⟩ "get_showtimes(\"Dune\")").2.1
      [PyVal.str "Dune"] rfl rfl (by decide),
   (C2_parse_failure_no_dispatch oQuiet ⟨[], []⟩ "get_showtimes(x, y)").2.2.2.2
      "malformed node or string" ⟨[], []⟩ 0
      ((C2_parse_failure_no_dispatch oQuiet ⟨[], []⟩ "get_showtimes(x, y)").1
        "malformed node or string" rfl rfl)⟩

/-- Counterexample to C2 as stated: on a malformed call text the turn
does not terminate gracefully -- it ends with an uncaught raise. -/
theorem C2_parse_failure_cex :
    dispatchLoop oQuiet 1 ⟨[], []⟩ "get_showtimes(movie_title, location)" =
      ⟨.raised "malformed node or string", ⟨[], []⟩⟩ ∧
    Outcome.raised "malformed node or string" ≠ Outcome.finished :=
  ⟨rfl, by decide⟩

/-- C3: a failure of the get_now_playing_movies handler is not caught
and aborts the turn, while the same failure of the get_showtimes handler
is caught, converted into a system context message, and the loop
continues to a further generation -- evaluating the code at the failing
input exhibits the divergence from the claim. -/
theorem C3_now_playing_failure_aborts_turn :
    dispatchLoop oNPFail 1 ⟨[], []⟩ "get_now_playing_movies()" =
      ⟨.raised "service unavailable", ⟨[], [Cap.nowPlaying]⟩⟩ ∧
    Outcome.raised "service unavailable" ≠ Outcome.finished ∧
    dispatchLoop oSTFail 2 ⟨[], []⟩ "get_showtimes(\"Dune\", \"SF\")" =
      ⟨.finished, ⟨[systemMsg "An error occurred while fetching showtimes: no showtimes found",
        assistantMsg "Enjoy your movie!"],
        [Cap.showtimes (.str "Dune") (.str "SF")]⟩⟩ :=
  ⟨rfl, by decide, rfl⟩

/-- C4 (amended): The while loop has no configured maximum dispatch-cycle
count. Whenever the model keeps emitting the now-playing call text and
the handler succeeds, the loop is still running after any number of
unrolled cycles, having dispatched once per cycle, and never surfaces a
diagnostic: it terminates only when a response matches no branch. -/
theorem C4_loop_unbounded (o : Oracle) (r : String)
    (hnp : o.get_now_playing_movies = .ok r)
    (hgen : ∀ h, strContains (o.generate h) "get_now_playing_movies()" = true) :
    ∀ (fuel : Nat) (st : LoopState) (resp : String),
      strContains resp "get_now_playing_movies()" = true →
      (dispatchLoop o fuel st resp).outcome = .running ∧
      (dispatchLoop o fuel st resp).state.calls.length = st.calls.length + fuel := by
  intro fuel
  induction fuel with
  | zero =>
    intro st resp _
    exact ⟨rfl, rfl⟩
  | succ n ih =>
    intro st resp hr
    have hI : inspect resp = some Branch.nowPlaying := by
      simp [inspect, detectStr, hr]
    have hcyc : dispatchCycle o st resp =
        .cont (genAppend o ⟨st.history ++ [systemMsg ("Current movies:\n\n " ++ r)],
            st.calls ++ [Cap.nowPlaying]⟩)
          (o.generate (st.history ++ [systemMsg ("Current movies:\n\n " ++ r)])) := by
      simp only [dispatchCycle, hI, nowPlayingCycle, hnp]
    have hloop : dispatchLoop o (n + 1) st resp =
        dispatchLoop o n
          (genAppend o ⟨st.history ++ [systemMsg ("Current movies:\n\n " ++ r)],
            st.calls ++ [Cap.nowPlaying]⟩)
          (o.generate (st.history ++ [systemMsg ("Current movies:\n\n " ++ r)])) := by
      simp only [dispatchLoop, hcyc]
    obtain ⟨h1, h2⟩ := ih
      (genAppend o ⟨st.history ++ [systemMsg ("Current movies:\n\n " ++ r)],
        st.calls ++ [Cap.nowPlaying]⟩)
      (o.generate (st.history ++ [systemMsg ("Current movies:\n\n " ++ r)]))
      (hgen _)
    rw [hloop]
    refine ⟨h1, ?_⟩
    rw [h2]
    simp only [genAppend, List.length_append, List.length_cons, List.length_nil]
    omega

/-- Witness for C4 at the repeating oracle: after 5 unrolled cycles the
loop is still running with 5 dispatches recorded. -/
theorem C4_loop_unbounded_w :
    (dispatchLoop oRep 5 ⟨[], []⟩ "get_now_playing_movies()").outcome = .running ∧
    (dispatchLoop oRep 5 ⟨[], []⟩ "get_now_playing_movies()").state.calls.length =
      ([] : List Cap).length + 5 :=
  C4_loop_unbounded oRep "Movie A, Movie B" rfl (fun _ => rfl) 5 ⟨[], []⟩
    "get_now_playing_movies()" rfl

/-- Counterexample to C4 as stated: a model re-emitting the same call
text has passed 5 cycles (6 are unrolled here) and the loop is still
running, with no termination and no diagnostic message. -/
theorem C4_no_cycle_cap_cex :
    (dispatchLoop oRep 6 ⟨[], []⟩ "get_now_playing_movies()").outcome = .running ∧
    (dispatchLoop oRep 6 ⟨[], []⟩ "get_now_playing_movies()").state.calls.length = 6 ∧
    Outcome.running ≠ Outcome.finished :=
  ⟨rfl, rfl, by decide⟩

/-- C5 (amended): For every syntactically valid single-call text naming
one of the four loop-dispatched capabilities with literal arguments of
the declared arity, if the text contains the detection substring the
code actually tests for that capability and contains the detection
substring of no higher-priority branch, then the elif chain selects
exactly that capability and parse_function_call_args yields the ordered
literal argument values. -/
theorem C5_extraction_roundtrip (b : Branch) (s : String) (args : List PyExpr) (vals : List PyVal)
    (hparse : pyParse s = .ok (.call (.name (capName b)) args))
    (hargs : evalArgs args = .ok vals)
    (_harity : vals.length = capArity b)
    (hdet : strContains s (detectStr b) = true)
    (hpri : ∀ b2 : Branch, priority b2 < priority b → strContains s (detectStr b2) = false) :
    inspect s = some b ∧ parse_function_call_args s = .ok vals := by
  constructor
  · cases b with
    | nowPlaying => simp [inspect, hdet]
    | showtimes =>
      have h0 := hpri .nowPlaying (by decide)
      simp [inspect, hdet, h0]
    | confirm =>
      have h0 := hpri .nowPlaying (by decide)
      have h1 := hpri .showtimes (by decide)
      simp [inspect, hdet, h0, h1]
    | buy =>
      have h0 := hpri .nowPlaying (by decide)
      have h1 := hpri .showtimes (by decide)
      have h2 := hpri .confirm (by decide)
      simp [inspect, hdet, h0, h1, h2]
  · simp [parse_function_call_args, hparse, extract_call_args, hargs]

/-- Witness for C5 at the round-trip example of the spec. -/
theorem C5_extraction_roundtrip_w :
    inspect "buy_ticket(\"A\",\"B\",\"7pm\")" = some Branch.buy ∧
    parse_function_call_args "buy_ticket(\"A\",\"B\",\"7pm\")" =
      .ok [.str "A", .str "B", .str "7pm"] :=
  C5_extraction_roundtrip Branch.buy "buy_ticket(\"A\",\"B\",\"7pm\")"
    [.const (.str "A"), .const (.str "B"), .const (.str "7pm")]
    [.str "A", .str "B", .str "7pm"] rfl rfl rfl rfl (by decide)

/-- A syntactically valid two-argument get_showtimes call whose first
string literal happens to contain the now-playing detection substring. -/
def hijackText : String := "get_showtimes(\"get_now_playing_movies()\", \"SF\")"

/-- Counterexample to C5 as stated: this valid single call to
get_showtimes with correct arity, whose text contains the substring
get_showtimes followed by an open paren, is nevertheless detected as a
now-playing call because a string-literal argument contains the
higher-priority substring, so the extraction step does not yield the
callee the text names -- the cycle dispatches get_now_playing_movies. -/
theorem C5_substring_priority_cex :
    pyParse hijackText = .ok (.call (.name "get_showtimes")
      [.const (.str "get_now_playing_movies()"), .const (.str "SF")]) ∧
    strContains hijackText "get_showtimes(" = true ∧
    inspect hijackText = some Branch.nowPlaying ∧
    inspect hijackText ≠ some Branch.showtimes ∧
    (dispatchLoop oQuiet 1 ⟨[], []⟩ hijackText).state.calls = [Cap.nowPlaying] :=
  ⟨rfl, rfl, rfl, by decide, rfl⟩

/-- One confirm cycle: an acknowledgment system message quoting the
response is appended, the model is re-generated, and no capability is
invoked. -/
theorem confirm_cycle_eq (o : Oracle) (st : LoopState) (resp : String)
    (hI : inspect resp = some Branch.confirm) :
    dispatchCycle o st resp =
      .cont ⟨st.history ++ [systemMsg ("The user has confirmed their purchase for " ++ resp),
          assistantMsg (o.generate (st.history ++
            [systemMsg ("The user has confirmed their purchase for " ++ resp)]))], st.calls⟩
        (o.generate (st.history ++
          [systemMsg ("The user has confirmed their purchase for " ++ resp)])) := by
  simp [dispatchCycle, hI, confirmCycle, genAppend]

/-- While every response is a confirm call or call-free text, the loop
records no capability call at all. -/
theorem confirm_loop_calls (o : Oracle)
    (hgen : ∀ h, inspect (o.generate h) = some Branch.confirm ∨ inspect (o.generate h) = none) :
    ∀ (fuel : Nat) (st : LoopState) (resp : String),
      inspect resp = some Branch.confirm ∨ inspect resp = none →
      (dispatchLoop o fuel st resp).state.calls = st.calls := by
  intro fuel
  induction fuel with
  | zero =>
    intro st resp _
    rfl
  | succ n ih =>
    intro st resp hr
    rcases hr with hc | hn
    · have hloop : dispatchLoop o (n + 1) st resp =
          dispatchLoop o n
            ⟨st.history ++ [systemMsg ("The user has confirmed their purchase for " ++ resp),
              assistantMsg (o.generate (st.history ++
                [systemMsg ("The user has confirmed their purchase for " ++ resp)]))], st.calls⟩
            (o.generate (st.history ++
              [systemMsg ("The user has confirmed their purchase for " ++ resp)])) := by
        simp only [dispatchLoop, confirm_cycle_eq o st resp hc]
      rw [hloop, ih _ _ (hgen _)]
    · have hcyc : dispatchCycle o st resp = .halt := by
        unfold dispatchCycle
        rw [hn]
      simp only [dispatchLoop, hcyc]

/-- C6: In a turn whose dispatch cycles contain only confirm calls (and
the terminating call-free response), no capability is invoked at all --
in particular buy_ticket is never invoked -- and a confirm cycle only
appends the acknowledgment system message and the regenerated assistant
message. -/
theorem C6_confirm_never_buys (o : Oracle) (fuel : Nat) (st : LoopState) (resp : String)
    (hr : inspect resp = some Branch.confirm ∨ inspect resp = none)
    (hgen : ∀ h, inspect (o.generate h) = some Branch.confirm ∨ inspect (o.generate h) = none) :
    (dispatchLoop o fuel st resp).state.calls = st.calls ∧
    (inspect resp = some Branch.confirm →
      ∃ st2 r2, dispatchCycle o st resp = .cont st2 r2 ∧ st2.calls = st.calls ∧
        st2.history = st.history ++
          [systemMsg ("The user has confirmed their purchase for " ++ resp),
            assistantMsg r2]) := by
  refine ⟨confirm_loop_calls o hgen fuel st resp hr, ?_⟩
  intro hc
  exact ⟨_, _, confirm_cycle_eq o st resp hc, rfl, rfl⟩

/-- Witness for C6 at a concrete confirm-only turn: no capability call
is recorded. -/
theorem C6_confirm_never_buys_w :
    (dispatchLoop oQuiet 3 ⟨[], []⟩
      "confirm_ticket_purchase(\"AMC\", \"Dune\", \"7pm\")").state.calls = ([] : List Cap) :=
  (C6_confirm_never_buys oQuiet 3 ⟨[], []⟩ "confirm_ticket_purchase(\"AMC\", \"Dune\", \"7pm\")"
    (Or.inl rfl) (fun _ => Or.inr rfl)).1

/-- C7 (amended): When the side-channel JSON decision fails to parse,
the error propagates out of the augmentation step and, because on_message
does not catch it, the turn aborts with the unhandled error; the session
is not corrupted -- no augmentation message is appended and the history
holds exactly the prior messages plus the already-appended user message. -/
theorem C7_augmentation_error_propagates (o : Oracle) (fuel : Nat) (h0 : List Message)
    (u : String) (e : String)
    (hA : o.augment (augSentMessages (h0 ++ [userMsg u])) = .error e) :
    on_message o fuel h0 u = ⟨.raised e, ⟨h0 ++ [userMsg u], []⟩⟩ := by
  have hstep : add_review_context_if_needed o (h0 ++ [userMsg u]) = .error e := by
    simp [add_review_context_if_needed, hA]
  simp only [on_message, hstep]

/-- Witness for C7 at a concrete failing decision. -/
theorem C7_augmentation_error_propagates_w :
    on_message oAugFail 3 on_chat_start_history "hi" =
      ⟨.raised "Expecting value: line 1 column 1 (char 0)",
        ⟨on_chat_start_history ++ [userMsg "hi"], []⟩⟩ :=
  C7_augmentation_error_propagates oAugFail 3 on_chat_start_history "hi"
    "Expecting value: line 1 column 1 (char 0)" rfl

/-- Counterexample to C7 as stated: the turn caller does not skip
augmentation and continue -- the turn ends in the raised error (though
the session indeed holds no augmentation message). -/
theorem C7_augmentation_error_cex :
    (on_message oAugFail 3 on_chat_start_history "hi").outcome =
      .raised "Expecting value: line 1 column 1 (char 0)" ∧
    Outcome.raised "Expecting value: line 1 column 1 (char 0)" ≠ Outcome.finished ∧
    (on_message oAugFail 3 on_chat_start_history "hi").state.history =
      [systemMsg SYSTEM_PROMPT, userMsg "hi"] :=
  ⟨rfl, by decide, rfl⟩

/-- C9: The augmenter substitutes its temporary prompt only in the copy
of the history it sends to the model; on completion the real history has
its original head message unchanged, and the only effect on the session
is appending at most one system review-context message. -/
theorem C9_augmenter_frame (o : Oracle) (h : List Message) :
    (∀ m0, h.head? = some m0 →
      (augSentMessages h).head? = some (systemMsg AUGMENT_PROMPT)) ∧
    (∀ h2 cs, add_review_context_if_needed o h = .ok (h2, cs) →
      (∀ m0, h.head? = some m0 → h2.head? = some m0) ∧
      (h2 = h ∨ ∃ r, h2 = h ++ [systemMsg ("MOVIE REVIEW CONTEXT:\n\n" ++ r)])) := by
  constructor
  · intro m0 hm
    cases h with
    | nil => exact absurd hm (by simp)
    | cons a l => rfl
  · intro h2 cs hok
    have hcase := aug_cases o h hok
    constructor
    · intro m0 hm
      rcases hcase with ⟨rfl, _⟩ | ⟨r, hr, _⟩
      · exact hm
      · subst hr
        cases h with
        | nil => exact absurd hm (by simp)
        | cons a l =>
          rw [List.head?_cons] at hm
          rw [List.cons_append, List.head?_cons]
          exact hm
    · rcases hcase with ⟨rfl, _⟩ | ⟨r, hr, _⟩
      · exact Or.inl rfl
      · exact Or.inr ⟨r, hr⟩

/-- Witness for C9: the copy sent to the model has the temporary prompt
at index 0, while the real session after a fetch keeps its original
system message at index 0 and gains one review-context message. -/
theorem C9_augmenter_frame_w :
    (augSentMessages [systemMsg SYSTEM_PROMPT]).head? = some (systemMsg AUGMENT_PROMPT) ∧
    ([systemMsg SYSTEM_PROMPT, systemMsg ("MOVIE REVIEW CONTEXT:\n\n" ++
        ("Reviews for " ++ "Dune" ++ ":\n\n" ++ "Critics loved it"))].head? =
      some (systemMsg SYSTEM_PROMPT)) ∧
    ([systemMsg SYSTEM_PROMPT, systemMsg ("MOVIE REVIEW CONTEXT:\n\n" ++
        ("Reviews for " ++ "Dune" ++ ":\n\n" ++ "Critics loved it"))] =
        [systemMsg SYSTEM_PROMPT] ∨
      ∃ r, [systemMsg SYSTEM_PROMPT, systemMsg ("MOVIE REVIEW CONTEXT:\n\n" ++
        ("Reviews for " ++ "Dune" ++ ":\n\n" ++ "Critics loved it"))] =
        [systemMsg SYSTEM_PROMPT] ++ [systemMsg ("MOVIE REVIEW CONTEXT:\n\n" ++ r)]) :=
  ⟨(C9_augmenter_frame oQuiet [systemMsg SYSTEM_PROMPT]).1 (systemMsg SYSTEM_PROMPT) rfl,
   ((C9_augmenter_frame oFetch [systemMsg SYSTEM_PROMPT]).2
      [systemMsg SYSTEM_PROMPT, systemMsg ("MOVIE REVIEW CONTEXT:\n\n" ++
        ("Reviews for " ++ "Dune" ++ ":\n\n" ++ "Critics loved it"))]
      [Cap.reviews 438631] rfl).1 (systemMsg SYSTEM_PROMPT) rfl,
   ((C9_augmenter_frame oFetch [systemMsg SYSTEM_PROMPT]).2
      [systemMsg SYSTEM_PROMPT, systemMsg ("MOVIE REVIEW CONTEXT:\n\n" ++
        ("Reviews for " ++ "Dune" ++ ":\n\n" ++ "Critics loved it"))]
      [Cap.reviews 438631] rfl).2⟩
